import Mathlib

/-!
Verification of the VisionAir BLE protocol codec and request/response
resolution logic, shallowly embedded from `src/visionair_ble/protocol.py`
and `src/visionair_ble/client.py`.

Bytes are modelled as `Nat` values; byte strings as `List Nat`.  Python
`bytes([...])` construction raises `ValueError` on out-of-range values,
so packet builders return `Option (List Nat)` (`none` = `ValueError`).
Python list indexing in the parsers is always guarded by length checks in
the source, so it is embedded with `List.getD` (the default is never
reached under the guards).
-/

/-- Packet framing magic prefix, `MAGIC = b"\xa5\xb6"`. -/
def MAGIC : List Nat := [0xa5, 0xb6]

def PacketType.DEVICE_STATE : Nat := 0x01

def PacketType.SCHEDULE : Nat := 0x02

def PacketType.PROBE_SENSORS : Nat := 0x03

def PacketType.SETTINGS_ACK : Nat := 0x23

def PacketType.REQUEST : Nat := 0x10

def PacketType.SETTINGS : Nat := 0x1A

def PacketType.SCHEDULE_WRITE : Nat := 0x40

def PacketType.SCHEDULE_CONFIG : Nat := 0x46

def RequestParam.DEVICE_STATE : Nat := 0x03

def RequestParam.PROBE_SENSORS : Nat := 0x07

def RequestParam.MODE_SELECT : Nat := 0x18

def RequestParam.BOOST : Nat := 0x19

def RequestParam.HOLIDAY : Nat := 0x1A

def RequestParam.SCHEDULE_TOGGLE : Nat := 0x1D

def RequestParam.PREHEAT_TEMP : Nat := 0x1C

def RequestParam.PREHEAT : Nat := 0x2F

def AirflowLevel.LOW : Nat := 1

def AirflowLevel.MEDIUM : Nat := 2

def AirflowLevel.HIGH : Nat := 3

def DeviceStateOffset.TYPE : Nat := 2

def DeviceStateOffset.UNKNOWN_5_7 : Nat := 5

def DeviceStateOffset.CONFIGURED_VOLUME : Nat := 22

def DeviceStateOffset.OPERATING_DAYS : Nat := 26

def DeviceStateOffset.FILTER_DAYS : Nat := 28

def DeviceStateOffset.MODE_SELECTOR : Nat := 34

def DeviceStateOffset.SUMMER_LIMIT_TEMP : Nat := 38

def DeviceStateOffset.HOLIDAY_DAYS : Nat := 43

def DeviceStateOffset.BOOST_ACTIVE : Nat := 44

def DeviceStateOffset.AIRFLOW_INDICATOR : Nat := 47

def DeviceStateOffset.SUMMER_LIMIT_ENABLED : Nat := 50

def DeviceStateOffset.PREHEAT_ENABLED : Nat := 53

def DeviceStateOffset.PREHEAT_TEMP : Nat := 56

def ProbeSensorOffset.TYPE : Nat := 2

def ProbeSensorOffset.TEMP_PROBE1 : Nat := 6

def ProbeSensorOffset.HUMIDITY_PROBE1 : Nat := 8

def ProbeSensorOffset.TEMP_PROBE2 : Nat := 11

def ProbeSensorOffset.FILTER_PERCENT : Nat := 13

def ScheduleDataOffset.TYPE : Nat := 2

def ScheduleDataOffset.REMOTE_TEMP : Nat := 11

def ScheduleDataOffset.REMOTE_HUMIDITY : Nat := 13

def AirflowIndicator.LOW : Nat := 104

def AirflowIndicator.MEDIUM : Nat := 194

def AirflowIndicator.HIGH : Nat := 38

/-- Mapping `AIRFLOW_BYTES`: SETTINGS packet byte pairs keyed by airflow
level; `none` models a key that is absent from the Python dict. -/
def AIRFLOW_BYTES (level : Nat) : Option (Nat × Nat) :=
  if level = AirflowLevel.LOW then some (0x19, 0x0A)
  else if level = AirflowLevel.MEDIUM then some (0x28, 0x15)
  else if level = AirflowLevel.HIGH then some (0x07, 0x30)
  else none

/-- Mapping `MODE_NAMES` (status byte 34 mode selector to display names). -/
def MODE_NAMES (m : Nat) : Option String :=
  if m = 0 then some "Low"
  else if m = 1 then some "Medium"
  else if m = 2 then some "High"
  else none

/-- Python truthiness of `x or d` on an optional integer: `None` and `0`
are falsy, so both fall through to the default. -/
def pyOrNat (x : Option Nat) (d : Nat) : Nat :=
  match x with
  | none => d
  | some v => if v = 0 then d else v

/-- Rounding of `n / 2 ^ k` to the nearest integer, ties to even. -/
def roundHalfEvenPow2 (n k : Nat) : Nat :=
  let q := n / 2 ^ k
  let r := n % 2 ^ k
  if 2 * r < 2 ^ k then q
  else if 2 ^ k < 2 * r then q + 1
  else if q % 2 = 0 then q else q + 1

/-- Number of halvings that bring `n` under `2 ^ 53` — the excess bit
count of `n` over an IEEE double significand.  The structural fuel
bounds the recursion; 70 covers every product arising here. -/
def fl53shift (n fuel : Nat) : Nat :=
  match fuel with
  | 0 => 0
  | fuel + 1 => if n < 2 ^ 53 then 0 else fl53shift (n / 2) fuel + 1

/-- Rounding of the integer `n` to 53 significant bits, to nearest, ties
to even: the rounding an IEEE double multiplication applies to an exact
integer-valued product. -/
def flNat53 (n : Nat) : Nat :=
  let k := fl53shift n 70
  roundHalfEvenPow2 n k * 2 ^ k

/-- Python `round(v * c)` where `c` is a float constant whose exact
double value is `mant / 2 ^ s`: the integer `v` converts to a double
exactly (every volume here is far below 2^53), the multiplication
rounds the exact product `v * mant / 2 ^ s` to 53 significant bits (to
nearest, ties to even), and Python `round` then rounds the resulting
double half-to-even to an integer.  This agrees with CPython's
`round(v * c)` for every `v ≤ 0xFFFF` and each constant below —
including the tie volumes such as `v = 110` with `c = 0.55`, where the
float product `60.50000000000001` rounds up to 61 although the exact
product `60.5` would tie to even. -/
def pyRoundTimes (v mant s : Nat) : Nat :=
  roundHalfEvenPow2 (flNat53 (v * mant)) s

/-- Exact value of the IEEE double literal `0.36`: `FLOAT_0_36 / 2 ^ 53`. -/
def FLOAT_0_36 : Nat := 3242591731706757

/-- Exact value of the IEEE double literal `0.45`: `FLOAT_0_45 / 2 ^ 54`. -/
def FLOAT_0_45 : Nat := 8106479329266893

/-- Exact value of the IEEE double literal `0.55`: `FLOAT_0_55 / 2 ^ 52`. -/
def FLOAT_0_55 : Nat := 2476979795053773

/-- Python `round(v * 0.36)` in IEEE double arithmetic. -/
def pyRound_0_36 (v : Nat) : Nat := pyRoundTimes v FLOAT_0_36 53

/-- Python `round(v * 0.45)` in IEEE double arithmetic. -/
def pyRound_0_45 (v : Nat) : Nat := pyRoundTimes v FLOAT_0_45 54

/-- Python `round(v * 0.55)` in IEEE double arithmetic. -/
def pyRound_0_55 (v : Nat) : Nat := pyRoundTimes v FLOAT_0_55 52

/-- Device state decoded from a DEVICE_STATE packet (dataclass
`DeviceStatus`).  `humidity_remote` is `float | None` in the source but no
code path modelled here ever assigns a number to it, so it is embedded
with `Option Nat`. -/
structure DeviceStatus where
  device_id : Nat
  airflow_indicator : Nat
  mode_selector : Nat
  mode_name : String
  airflow : Nat
  airflow_mode : String
  configured_volume : Option Nat
  airflow_low : Option Nat
  airflow_medium : Option Nat
  airflow_high : Option Nat
  temp_remote : Option Nat
  temp_probe1 : Option Nat
  temp_probe2 : Option Nat
  humidity_remote : Option Nat
  humidity_probe1 : Option Nat
  filter_days : Option Nat
  operating_days : Option Nat
  preheat_enabled : Bool
  preheat_temp : Nat
  summer_limit_enabled : Bool
  summer_limit_temp : Option Nat
  boost_active : Bool
  holiday_days : Nat
deriving DecidableEq, Repr, Inhabited

/-- Probe sensor readings decoded from a PROBE_SENSORS packet (dataclass
`SensorData`). -/
structure SensorData where
  temp_probe1 : Option Nat := none
  temp_probe2 : Option Nat := none
  humidity_probe1 : Option Nat := none
  filter_percent : Option Nat := none
deriving DecidableEq, Repr

/-- A single hourly schedule slot (dataclass `ScheduleSlot`). -/
structure ScheduleSlot where
  preheat_temp : Nat
  mode_byte : Nat
deriving DecidableEq, Repr

/-- Full 24-hour schedule configuration (dataclass `ScheduleConfig`). -/
structure ScheduleConfig where
  slots : List ScheduleSlot
deriving DecidableEq, Repr

/-- Function `calc_checksum`: XOR of all payload bytes. -/
def calc_checksum (data : List Nat) : Nat :=
  data.foldl (fun result b => result ^^^ b) 0

/-- Function `verify_checksum`: magic prefix plus trailing XOR checksum of
`packet[2:-1]`. -/
def verify_checksum (packet : List Nat) : Bool :=
  if packet.length < 4 ∨ packet.take 2 ≠ MAGIC then
    false
  else
    let expected := packet.getD (packet.length - 1) 0
    let calculated := calc_checksum ((packet.drop 2).dropLast)
    calculated == expected

/-- Function `build_request`: standard 11-byte request packet (type 0x10).
`none` models the `ValueError` that Python `bytes([...])` raises for
byte values above 255 (the short format never places `value` in the
packet, so `value` is not range-checked there). -/
def build_request (param : Nat) (value : Nat) (extended : Bool) : Option (List Nat) :=
  if extended then
    if param ≤ 255 ∧ value ≤ 255 then
      let payload := [PacketType.REQUEST, 0x06, 0x05, param, 0x00, 0x00, 0x00, value]
      some (MAGIC ++ payload ++ [calc_checksum payload])
    else none
  else
    if param ≤ 255 then
      let payload := [PacketType.REQUEST, 0x00, 0x05, param, 0x00, 0x00, 0x00, 0x00]
      some (MAGIC ++ payload ++ [calc_checksum payload])
    else none

/-- Function `build_status_request`. -/
def build_status_request : Option (List Nat) :=
  build_request RequestParam.DEVICE_STATE 0 false

/-- Function `build_sensor_request`. -/
def build_sensor_request : Option (List Nat) :=
  build_request RequestParam.PROBE_SENSORS 0 true

/-- Function `build_preheat_temp_request`: validates the 12–18 °C window
before building; `none` models the `ValueError`. -/
def build_preheat_temp_request (temperature : Int) : Option (List Nat) :=
  if ¬ (12 ≤ temperature ∧ temperature ≤ 18) then none
  else build_request RequestParam.PREHEAT_TEMP temperature.toNat true

/-- Function `build_holiday_command`: validates `0 ≤ days ≤ 255` before
building; `none` models the `ValueError`. -/
def build_holiday_command (days : Int) : Option (List Nat) :=
  if ¬ (0 ≤ days ∧ days ≤ 255) then none
  else build_request RequestParam.HOLIDAY days.toNat true

/-- Function `build_settings_packet`: validates the airflow level against
`AIRFLOW_BYTES` before building; the preheat temperature is not
validated beyond the byte-range check of Python `bytes([...])`. -/
def build_settings_packet (summer_limit_enabled : Bool) (preheat_temp : Nat)
    (airflow : Nat) : Option (List Nat) :=
  match AIRFLOW_BYTES airflow with
  | none => none
  | some (af_b1, af_b2) =>
    if preheat_temp ≤ 255 then
      let payload := [PacketType.SETTINGS, 0x06, 0x06, 0x1A, 0x02,
        if summer_limit_enabled then 0x02 else 0x00,
        preheat_temp, af_b1, af_b2]
      some (MAGIC ++ payload ++ [calc_checksum payload])
    else none

/-- Slot byte serialization loop of `build_schedule_write` (the
`for slot in config.slots` body appending `preheat_temp` then
`mode_byte`). -/
def scheduleSlotBytes (slots : List ScheduleSlot) : List Nat :=
  slots.flatMap (fun slot => [slot.preheat_temp, slot.mode_byte])

/-- Function `build_schedule_write`: 55-byte schedule write packet (type
0x40); `none` models the `ValueError` for a slot count other than 24 or
for slot bytes out of byte range. -/
def build_schedule_write (config : ScheduleConfig) : Option (List Nat) :=
  if config.slots.length ≠ 24 then none
  else if config.slots.all (fun slot => slot.preheat_temp ≤ 255 && slot.mode_byte ≤ 255) then
    let payload := [PacketType.SCHEDULE_WRITE, 0x06, 0x31, 0x00] ++ scheduleSlotBytes config.slots
    some (MAGIC ++ payload ++ [calc_checksum payload])
  else none

/-- Function `parse_status`: decodes a DEVICE_STATE packet (type 0x01)
into a `DeviceStatus`, or `none` when the packet is shorter than 61
bytes, lacks the magic prefix, or has the wrong type byte. -/
def parse_status (data : List Nat) : Option DeviceStatus :=
  if data.length < 61 ∨ data.take 2 ≠ MAGIC ∨
      data.getD DeviceStateOffset.TYPE 0 ≠ PacketType.DEVICE_STATE then
    none
  else
    let airflow_indicator := data.getD DeviceStateOffset.AIRFLOW_INDICATOR 0
    let mode_selector := data.getD DeviceStateOffset.MODE_SELECTOR 0
    let mode_name := (MODE_NAMES mode_selector).getD
      ("Unknown (" ++ toString mode_selector ++ ")")
    let configured_volume :=
      if DeviceStateOffset.CONFIGURED_VOLUME + 2 ≤ data.length then
        some (data.getD DeviceStateOffset.CONFIGURED_VOLUME 0 +
          256 * data.getD (DeviceStateOffset.CONFIGURED_VOLUME + 1) 0)
      else none
    let airflow_low :=
      match configured_volume with
      | some v => if 0 < v then some (pyRound_0_36 v) else none
      | none => none
    let airflow_medium :=
      match configured_volume with
      | some v => if 0 < v then some (pyRound_0_45 v) else none
      | none => none
    let airflow_high :=
      match configured_volume with
      | some v => if 0 < v then some (pyRound_0_55 v) else none
      | none => none
    let airflow_mode :=
      if airflow_indicator = AirflowIndicator.LOW then "low"
      else if airflow_indicator = AirflowIndicator.MEDIUM then "medium"
      else if airflow_indicator = AirflowIndicator.HIGH then "high"
      else "unknown"
    let airflow :=
      if airflow_indicator = AirflowIndicator.LOW then pyOrNat airflow_low 0
      else if airflow_indicator = AirflowIndicator.MEDIUM then pyOrNat airflow_medium 0
      else if airflow_indicator = AirflowIndicator.HIGH then pyOrNat airflow_high 0
      else 0
    let filter_days :=
      if DeviceStateOffset.FILTER_DAYS + 2 ≤ data.length then
        some (data.getD DeviceStateOffset.FILTER_DAYS 0 +
          256 * data.getD (DeviceStateOffset.FILTER_DAYS + 1) 0)
      else none
    let operating_days :=
      if DeviceStateOffset.FILTER_DAYS + 2 ≤ data.length then
        some (data.getD DeviceStateOffset.OPERATING_DAYS 0 +
          256 * data.getD (DeviceStateOffset.OPERATING_DAYS + 1) 0)
      else none
    some {
      device_id := data.getD DeviceStateOffset.UNKNOWN_5_7 0 +
        256 * data.getD (DeviceStateOffset.UNKNOWN_5_7 + 1) 0 +
        65536 * data.getD (DeviceStateOffset.UNKNOWN_5_7 + 2) 0
      configured_volume := configured_volume
      airflow := airflow
      airflow_low := airflow_low
      airflow_medium := airflow_medium
      airflow_high := airflow_high
      airflow_indicator := airflow_indicator
      airflow_mode := airflow_mode
      preheat_enabled := data.getD DeviceStateOffset.PREHEAT_ENABLED 0 != 0x00
      summer_limit_enabled := data.getD DeviceStateOffset.SUMMER_LIMIT_ENABLED 0 != 0x00
      summer_limit_temp :=
        if DeviceStateOffset.SUMMER_LIMIT_TEMP < data.length then
          some (data.getD DeviceStateOffset.SUMMER_LIMIT_TEMP 0)
        else none
      preheat_temp := data.getD DeviceStateOffset.PREHEAT_TEMP 0
      holiday_days :=
        if DeviceStateOffset.HOLIDAY_DAYS < data.length then
          data.getD DeviceStateOffset.HOLIDAY_DAYS 0
        else 0
      boost_active :=
        if DeviceStateOffset.BOOST_ACTIVE < data.length then
          data.getD DeviceStateOffset.BOOST_ACTIVE 0 == 0x01
        else false
      mode_selector := mode_selector
      mode_name := mode_name
      temp_remote := none
      temp_probe1 := none
      temp_probe2 := none
      humidity_remote := none
      humidity_probe1 := none
      filter_days := filter_days
      operating_days := operating_days
    }

/-- Function `parse_sensors`: decodes a PROBE_SENSORS packet (type 0x03),
or `none` when shorter than 14 bytes, wrong magic, or wrong type byte. -/
def parse_sensors (data : List Nat) : Option SensorData :=
  if data.length < 14 ∨ data.take 2 ≠ MAGIC ∨
      data.getD ProbeSensorOffset.TYPE 0 ≠ PacketType.PROBE_SENSORS then
    none
  else
    some {
      temp_probe1 :=
        if ProbeSensorOffset.TEMP_PROBE1 < data.length then
          some (data.getD ProbeSensorOffset.TEMP_PROBE1 0)
        else none
      temp_probe2 :=
        if ProbeSensorOffset.TEMP_PROBE2 < data.length then
          some (data.getD ProbeSensorOffset.TEMP_PROBE2 0)
        else none
      humidity_probe1 :=
        if ProbeSensorOffset.HUMIDITY_PROBE1 < data.length then
          some (data.getD ProbeSensorOffset.HUMIDITY_PROBE1 0)
        else none
      filter_percent :=
        if ProbeSensorOffset.FILTER_PERCENT < data.length then
          some (data.getD ProbeSensorOffset.FILTER_PERCENT 0)
        else none
    }

/-- Function `parse_schedule_data`: extracts the Remote sensor temperature
(byte 11) and humidity (byte 13) from a SCHEDULE packet (type 0x02);
each value is replaced by `none` when the raw byte is 0 or 255. -/
def parse_schedule_data (data : List Nat) : Option Nat × Option Nat :=
  if data.length < 14 ∨ data.take 2 ≠ MAGIC ∨
      data.getD ScheduleDataOffset.TYPE 0 ≠ PacketType.SCHEDULE then
    (none, none)
  else
    let temp := data.getD ScheduleDataOffset.REMOTE_TEMP 0
    let humidity := data.getD ScheduleDataOffset.REMOTE_HUMIDITY 0
    let temp2 := if temp = 0 ∨ temp = 255 then none else some temp
    let humidity2 := if humidity = 0 ∨ humidity = 255 then none else some humidity
    (temp2, humidity2)

/-- Function `parse_schedule_config`: decodes a SCHEDULE_CONFIG packet
(type 0x46) into 24 slots after checking the 3-byte structural header. -/
def parse_schedule_config (data : List Nat) : Option ScheduleConfig :=
  if data.length < 55 ∨ data.take 2 ≠ MAGIC ∨
      data.getD 2 0 ≠ PacketType.SCHEDULE_CONFIG then
    none
  else if (data.drop 3).take 3 ≠ [0x06, 0x31, 0x00] then
    none
  else
    some ⟨(List.range 24).map (fun i =>
      { preheat_temp := data.getD (6 + i * 2) 0, mode_byte := data.getD (6 + i * 2 + 1) 0 })⟩

/-- Failure kinds of the client operations: `timeout` models the
`TimeoutError` raised when no usable response was collected, and
`invalidResponse` the `ValueError` raised when the collected packet does
not decode. -/
inductive ClientError where
  | timeout
  | invalidResponse
deriving DecidableEq, Repr

/-- Notification filter of the `get_status` handler: magic prefix and
DEVICE_STATE type byte. -/
def isDeviceStatePacket (data : List Nat) : Bool :=
  data.take 2 == MAGIC && data.getD 2 0 == PacketType.DEVICE_STATE

/-- Resolution logic of `VisionAirClient.get_status` over the sequence of
notifications delivered during the operation: the handler stores the
first DEVICE_STATE notification and sets the completion event, the
waiter resumes, unsubscribes, and decodes the stored bytes.
Notifications arriving after the wait resolves (such as a fresh status
delivered 50 ms after a stale one) are no longer observed. -/
def getStatusResolve (notifications : List (List Nat)) : Except ClientError DeviceStatus :=
  match notifications.find? isDeviceStatePacket with
  | none => Except.error ClientError.timeout
  | some status_data =>
    match parse_status status_data with
    | none => Except.error ClientError.invalidResponse
    | some status => Except.ok status

/-- Notification accumulator of the `get_fresh_status` handler. -/
structure FreshCollection where
  probe_data : Option (List Nat)
  state_packets : List (List Nat)
deriving DecidableEq, Repr

/-- Handler body of `get_fresh_status`: PROBE_SENSORS packets replace
`probe_data` (latest wins), DEVICE_STATE packets are appended to
`state_packets`, anything without the magic prefix is dropped. -/
def collectFreshStep (acc : FreshCollection) (data : List Nat) : FreshCollection :=
  if data.take 2 ≠ MAGIC then acc
  else if data.getD 2 0 = PacketType.PROBE_SENSORS then
    { acc with probe_data := some data }
  else if data.getD 2 0 = PacketType.DEVICE_STATE then
    { acc with state_packets := acc.state_packets ++ [data] }
  else acc

/-- Collection phase of `get_fresh_status` over all notifications that
arrive while the handler is registered. -/
def collectFresh (notifications : List (List Nat)) : FreshCollection :=
  notifications.foldl collectFreshStep ⟨none, []⟩

/-- Body of the `for pkt in state_packets` selection loop of
`get_fresh_status`: the first packet of length ≥ 43 is kept, and any
packet whose mode selector byte 34 equals 2 replaces it and supplies
`remote_temp` from byte 32. -/
def selectStatusStep (acc : Option (List Nat) × Option Nat) (pkt : List Nat) :
    Option (List Nat) × Option Nat :=
  if 43 ≤ pkt.length then
    let status_data := match acc.1 with
      | none => pkt
      | some p => p
    if pkt.getD 34 0 = 2 then (some pkt, some (pkt.getD 32 0))
    else (some status_data, acc.2)
  else acc

/-- Probe override block of `get_fresh_status`: each of `temp_probe1`,
`temp_probe2` and `humidity_probe1` is replaced only when the parsed
PROBE_SENSORS packet supplies it. -/
def applyProbeOverrides (status : DeviceStatus) (sensors : SensorData) : DeviceStatus :=
  let status1 := match sensors.temp_probe1 with
    | some v => { status with temp_probe1 := some v }
    | none => status
  let status2 := match sensors.temp_probe2 with
    | some v => { status1 with temp_probe2 := some v }
    | none => status1
  match sensors.humidity_probe1 with
  | some v => { status2 with humidity_probe1 := some v }
  | none => status2

/-- Resolution logic of `get_fresh_status` after the notification
collection phase: select the best DEVICE_STATE packet, raise
`TimeoutError` when none of length ≥ 43 arrived, decode it, apply the
probe-sensor overrides, then the remote temperature override. -/
def getFreshStatusResolve (state_packets : List (List Nat))
    (probe_data : Option (List Nat)) : Except ClientError DeviceStatus :=
  let sel := state_packets.foldl selectStatusStep (none, none)
  match sel.1 with
  | none => Except.error ClientError.timeout
  | some status_data =>
    match parse_status status_data with
    | none => Except.error ClientError.invalidResponse
    | some status =>
      let sensors := match probe_data with
        | some pd => parse_sensors pd
        | none => none
      let status3 := match sensors with
        | some sd => applyProbeOverrides status sd
        | none => status
      let status4 := match sel.2 with
        | some rt => { status3 with temp_remote := some rt }
        | none => status3
      Except.ok status4

/-- Whole-operation model of `get_fresh_status`: collect the delivered
notifications, then resolve. -/
def getFreshStatusRun (notifications : List (List Nat)) : Except ClientError DeviceStatus :=
  let c := collectFresh notifications
  getFreshStatusResolve c.state_packets c.probe_data

/-- Projection used to state results about a resolved operation's airflow
mode. -/
def resultAirflowMode (r : Except ClientError DeviceStatus) : Option String :=
  match r with
  | Except.ok s => some s.airflow_mode
  | Except.error _ => none

/-- Concrete 61-byte DEVICE_STATE packet with configured volume 363
(bytes 107, 1 at offsets 22–23) and airflow indicator 0x68 at offset
47. -/
def c7_pkt : List Nat :=
  [0xa5, 0xb6, 0x01] ++ List.replicate 19 0 ++ [107, 1] ++
    List.replicate 23 0 ++ [0x68] ++ List.replicate 13 0

/-- Status decoded from `c7_pkt`. -/
def c7_status : DeviceStatus := (parse_status c7_pkt).iget

/-- Concrete 24-slot schedule: 23 LOW slots at 16 °C and one final slot at
18 °C whose mode byte 0x99 is outside the known AirflowLevel set. -/
def c5_config : ScheduleConfig :=
  ⟨List.replicate 23 (ScheduleSlot.mk 16 0x28) ++ [ScheduleSlot.mk 18 0x99]⟩

/-- Projection: whether an operation resolved as a timeout error. -/
def isTimeout (r : Except ClientError DeviceStatus) : Bool :=
  match r with
  | Except.error ClientError.timeout => true
  | _ => false

/-- Projection of a resolved operation onto its probe-sourced fields. -/
def resultProbeFields (r : Except ClientError DeviceStatus) :
    Option (Option Nat × Option Nat × Option Nat) :=
  match r with
  | Except.ok s => some (s.temp_probe1, s.temp_probe2, s.humidity_probe1)
  | Except.error _ => none

/-- Concrete valid 61-byte DEVICE_STATE packet used as the only
notification of a `get_fresh_status` run in which PROBE_SENSORS never
arrives. -/
def c2_state : List Nat := [0xa5, 0xb6, 0x01] ++ List.replicate 58 0

/-- Stale DEVICE_STATE notification left over from a prior operation:
valid framing, configured volume 363, airflow indicator 0x68 (LOW). -/
def c3_stale : List Nat :=
  [0xa5, 0xb6, 0x01] ++ List.replicate 19 0 ++ [107, 1] ++
    List.replicate 23 0 ++ [0x68] ++ List.replicate 13 0

/-- Fresh DEVICE_STATE notification: identical framing but airflow
indicator 0x26 (HIGH). -/
def c3_fresh : List Nat :=
  [0xa5, 0xb6, 0x01] ++ List.replicate 19 0 ++ [107, 1] ++
    List.replicate 23 0 ++ [0x26] ++ List.replicate 13 0

/-- C1 counterexample: a 61-byte packet with valid framing and type byte
but an incorrect trailing checksum (the XOR of bytes 2..59 is 0x01, the
final byte is 0x00) fails `verify_checksum` yet is still decoded by
`parse_status` into a `DeviceStatus`. -/
theorem c1_checksum_bypass_cex :
    verify_checksum ([0xa5, 0xb6, 0x01] ++ List.replicate 58 0) = false ∧
    (parse_status ([0xa5, 0xb6, 0x01] ++ List.replicate 58 0)).isSome = true := by
  decide

/-- C1 (amended): `parse_status` decodes a packet exactly when it is at
least 61 bytes long, starts with the magic prefix, and carries the
DEVICE_STATE type byte — the checksum is not consulted, so a packet
failing `verify_checksum` can still be decoded. -/
theorem c1_parse_status_ignores_checksum (data : List Nat) :
    (parse_status data).isSome ↔
      (61 ≤ data.length ∧ data.take 2 = MAGIC ∧
        data.getD DeviceStateOffset.TYPE 0 = PacketType.DEVICE_STATE) := by
  rw [parse_status]
  split
  · rename_i h
    simp only [Option.isSome_none, Bool.false_eq_true, false_iff, not_and]
    intro h1 h2 h3
    rcases h with h | h | h
    · omega
    · exact h h2
    · exact h h3
  · rename_i h
    push_neg at h
    simp only [Option.isSome_some, true_iff]
    exact ⟨by omega, h.2.1, h.2.2⟩

/-- C4 counterexample: `build_request` in short format with value byte 1
produces a packet whose byte at offset 9 is 0x00, not the requested
value — the value byte is not carried by the short format. -/
theorem c4_short_format_drops_value_cex :
    (build_request RequestParam.DEVICE_STATE 1 false).map (fun p => p.getD 9 0) = some 0 ∧
    ¬ (build_request RequestParam.DEVICE_STATE 1 false).map (fun p => p.getD 9 0) = some 1 := by
  decide

/-- C4 (amended): for every parameter byte and value byte the built packet
carries the type byte 0x10 at offset 2, the format byte at offset 3, the
header byte 0x05 at offset 4, the parameter at offset 5, zeroes at
offsets 6–8, and a valid checksum; the value byte is carried at offset 9
only in the extended format — the short format always writes 0x00
there, so the value is recoverable only for the extended format. -/
theorem c4_request_envelope_fields (param value : Nat) (ext : Bool)
    (hp : param ≤ 255) (hv : value ≤ 255) :
    ∃ pkt, build_request param value ext = some pkt ∧
      pkt.length = 11 ∧
      pkt.take 2 = MAGIC ∧
      pkt.getD 2 0 = PacketType.REQUEST ∧
      pkt.getD 3 0 = (if ext then 0x06 else 0x00) ∧
      pkt.getD 4 0 = 0x05 ∧
      pkt.getD 5 0 = param ∧
      pkt.getD 6 0 = 0 ∧ pkt.getD 7 0 = 0 ∧ pkt.getD 8 0 = 0 ∧
      pkt.getD 9 0 = (if ext then value else 0) ∧
      verify_checksum pkt = true := by
  cases ext
  · have hb : build_request param value false =
        some (MAGIC ++ [PacketType.REQUEST, 0x00, 0x05, param, 0x00, 0x00, 0x00, 0x00] ++
          [calc_checksum [PacketType.REQUEST, 0x00, 0x05, param, 0x00, 0x00, 0x00, 0x00]]) := by
      simp [build_request, hp]
    refine ⟨_, hb, ?_, ?_, ?_, ?_, ?_, ?_, ?_, ?_, ?_, ?_, ?_⟩ <;>
      simp [MAGIC, verify_checksum, calc_checksum, PacketType.REQUEST, List.getD]
  · have hb : build_request param value true =
        some (MAGIC ++ [PacketType.REQUEST, 0x06, 0x05, param, 0x00, 0x00, 0x00, value] ++
          [calc_checksum [PacketType.REQUEST, 0x06, 0x05, param, 0x00, 0x00, 0x00, value]]) := by
      simp [build_request, hp, hv]
    refine ⟨_, hb, ?_, ?_, ?_, ?_, ?_, ?_, ?_, ?_, ?_, ?_, ?_⟩ <;>
      simp [MAGIC, verify_checksum, calc_checksum, PacketType.REQUEST, List.getD]

/-- C4 witness: the amended theorem applied at parameter 0x18, value 2, in
the extended format. -/
theorem c4_request_envelope_fields_witness :
    ∃ pkt, build_request 0x18 2 true = some pkt ∧
      pkt.length = 11 ∧
      pkt.take 2 = MAGIC ∧
      pkt.getD 2 0 = PacketType.REQUEST ∧
      pkt.getD 3 0 = (if true then 0x06 else 0x00) ∧
      pkt.getD 4 0 = 0x05 ∧
      pkt.getD 5 0 = 0x18 ∧
      pkt.getD 6 0 = 0 ∧ pkt.getD 7 0 = 0 ∧ pkt.getD 8 0 = 0 ∧
      pkt.getD 9 0 = (if true then 2 else 0) ∧
      verify_checksum pkt = true :=
  c4_request_envelope_fields 0x18 2 true (by decide) (by decide)

/-- C8 counterexample: `build_settings_packet` accepts a preheat
temperature of 100 °C — far outside both the 12–18 °C window enforced by
`build_preheat_temp_request` and the 14–22 °C range its own docstring
mentions — and builds a packet, while the dedicated preheat encoder
rejects the same temperature.  Not every encoder taking a preheat
temperature validates it. -/
theorem c8_settings_accepts_any_preheat_cex :
    (build_settings_packet true 100 AirflowLevel.LOW).isSome = true ∧
    build_preheat_temp_request 100 = none := by
  decide

/-- C8 (amended): `build_preheat_temp_request` rejects temperatures
outside 12–18 °C, `build_holiday_command` rejects day counts outside
0–255, and `build_settings_packet` rejects airflow levels that are not
LOW/MEDIUM/HIGH — each before any packet bytes are built; but
`build_settings_packet` does not validate its preheat temperature
beyond the byte-range check (any value 0–255 is accepted). -/
theorem c8_encoder_validation (t days : Int) (s : Bool) (pt af : Nat) :
    (build_preheat_temp_request t = none ↔ ¬ (12 ≤ t ∧ t ≤ 18)) ∧
    (build_holiday_command days = none ↔ ¬ (0 ≤ days ∧ days ≤ 255)) ∧
    (build_settings_packet s pt af = none ↔ (AIRFLOW_BYTES af = none ∨ 255 < pt)) := by
  refine ⟨?_, ?_, ?_⟩
  · rw [build_preheat_temp_request]
    split
    · rename_i h
      simp [h]
    · rename_i h
      push_neg at h
      rw [build_request]
      have hp : RequestParam.PREHEAT_TEMP ≤ 255 ∧ t.toNat ≤ 255 := by
        constructor
        · decide
        · omega
      simp [hp, not_and, not_le]
      omega
  · rw [build_holiday_command]
    split
    · rename_i h
      simp [h]
    · rename_i h
      push_neg at h
      rw [build_request]
      have hp : RequestParam.HOLIDAY ≤ 255 ∧ days.toNat ≤ 255 := by
        constructor
        · decide
        · omega
      simp [hp, not_and, not_le]
      omega
  · rw [build_settings_packet]
    rcases hab : AIRFLOW_BYTES af with _ | ⟨b1, b2⟩
    · simp
    · simp only [hab]
      split
      · rename_i h
        simp
        omega
      · rename_i h
        simp
        omega

/-- C10: on a well-formed SCHEDULE packet (length ≥ 14, magic prefix, type
byte 0x02), `parse_schedule_data` reports the remote temperature
(byte 11) and remote humidity (byte 13) as absent exactly when the raw
byte equals 0 or 255 — so a genuine reading of 0 is reported as absent —
and otherwise returns the raw byte unchanged. -/
theorem c10_remote_sensor_sanitized (data : List Nat)
    (hlen : 14 ≤ data.length) (hmagic : data.take 2 = MAGIC)
    (htype : data.getD 2 0 = PacketType.SCHEDULE) :
    parse_schedule_data data =
      ((if data.getD 11 0 = 0 ∨ data.getD 11 0 = 255 then none
        else some (data.getD 11 0)),
       (if data.getD 13 0 = 0 ∨ data.getD 13 0 = 255 then none
        else some (data.getD 13 0))) := by
  rw [parse_schedule_data, if_neg]
  · rfl
  · rintro (h | h | h)
    · omega
    · exact h hmagic
    · exact h htype

/-- C10 witness: a 14-byte SCHEDULE packet with remote temperature byte 21
and remote humidity byte 255 decodes to a present temperature of 21 and
an absent humidity. -/
theorem c10_remote_sensor_sanitized_witness :
    parse_schedule_data [0xa5, 0xb6, 0x02, 0, 0, 0, 0, 0, 0, 0, 0, 21, 0, 255] =
      ((if (21 : Nat) = 0 ∨ (21 : Nat) = 255 then none else some 21),
       (if (255 : Nat) = 0 ∨ (255 : Nat) = 255 then none else some 255)) :=
  c10_remote_sensor_sanitized
    [0xa5, 0xb6, 0x02, 0, 0, 0, 0, 0, 0, 0, 0, 21, 0, 255]
    (by decide) (by decide) (by decide)

/-- Helper: `pyOrNat (some v) 0` is `v` (Python `v or 0` with `v ≥ 0`). -/
theorem pyOrNat_some_zero (v : Nat) : pyOrNat (some v) 0 = v := by
  cases v <;> rfl

/-- Helper: on a packet passing the guard of `parse_status` (length ≥ 61,
magic prefix, DEVICE_STATE type byte), the decode succeeds and every
field takes the value read or derived from its fixed byte offset. -/
theorem parse_status_valid (data : List Nat) (h61 : 61 ≤ data.length)
    (hm : data.take 2 = MAGIC) (ht : data.getD 2 0 = PacketType.DEVICE_STATE) :
    parse_status data = some {
      device_id := data.getD 5 0 + 256 * data.getD 6 0 + 65536 * data.getD 7 0
      airflow_indicator := data.getD 47 0
      mode_selector := data.getD 34 0
      mode_name := (MODE_NAMES (data.getD 34 0)).getD
        ("Unknown (" ++ toString (data.getD 34 0) ++ ")")
      airflow :=
        if data.getD 47 0 = AirflowIndicator.LOW then
          pyOrNat (if 0 < data.getD 22 0 + 256 * data.getD 23 0 then
            some (pyRound_0_36 (data.getD 22 0 + 256 * data.getD 23 0)) else none) 0
        else if data.getD 47 0 = AirflowIndicator.MEDIUM then
          pyOrNat (if 0 < data.getD 22 0 + 256 * data.getD 23 0 then
            some (pyRound_0_45 (data.getD 22 0 + 256 * data.getD 23 0)) else none) 0
        else if data.getD 47 0 = AirflowIndicator.HIGH then
          pyOrNat (if 0 < data.getD 22 0 + 256 * data.getD 23 0 then
            some (pyRound_0_55 (data.getD 22 0 + 256 * data.getD 23 0)) else none) 0
        else 0
      airflow_mode :=
        if data.getD 47 0 = AirflowIndicator.LOW then "low"
        else if data.getD 47 0 = AirflowIndicator.MEDIUM then "medium"
        else if data.getD 47 0 = AirflowIndicator.HIGH then "high"
        else "unknown"
      configured_volume := some (data.getD 22 0 + 256 * data.getD 23 0)
      airflow_low :=
        if 0 < data.getD 22 0 + 256 * data.getD 23 0 then
          some (pyRound_0_36 (data.getD 22 0 + 256 * data.getD 23 0)) else none
      airflow_medium :=
        if 0 < data.getD 22 0 + 256 * data.getD 23 0 then
          some (pyRound_0_45 (data.getD 22 0 + 256 * data.getD 23 0)) else none
      airflow_high :=
        if 0 < data.getD 22 0 + 256 * data.getD 23 0 then
          some (pyRound_0_55 (data.getD 22 0 + 256 * data.getD 23 0)) else none
      temp_remote := none
      temp_probe1 := none
      temp_probe2 := none
      humidity_remote := none
      humidity_probe1 := none
      filter_days := some (data.getD 28 0 + 256 * data.getD 29 0)
      operating_days := some (data.getD 26 0 + 256 * data.getD 27 0)
      preheat_enabled := data.getD 53 0 != 0x00
      preheat_temp := data.getD 56 0
      summer_limit_enabled := data.getD 50 0 != 0x00
      summer_limit_temp := some (data.getD 38 0)
      boost_active := data.getD 44 0 == 0x01
      holiday_days := data.getD 43 0
    } := by
  rw [parse_status, if_neg]
  · have h24 : DeviceStateOffset.CONFIGURED_VOLUME + 2 ≤ data.length := by
      unfold DeviceStateOffset.CONFIGURED_VOLUME
      omega
    have h30 : DeviceStateOffset.FILTER_DAYS + 2 ≤ data.length := by
      unfold DeviceStateOffset.FILTER_DAYS
      omega
    have h38 : DeviceStateOffset.SUMMER_LIMIT_TEMP < data.length := by
      unfold DeviceStateOffset.SUMMER_LIMIT_TEMP
      omega
    have h43 : DeviceStateOffset.HOLIDAY_DAYS < data.length := by
      unfold DeviceStateOffset.HOLIDAY_DAYS
      omega
    have h44 : DeviceStateOffset.BOOST_ACTIVE < data.length := by
      unfold DeviceStateOffset.BOOST_ACTIVE
      omega
    simp only [if_pos h24, if_pos h30, if_pos h38, if_pos h43, if_pos h44]
    rfl
  · rintro (h | h | h)
    · omega
    · exact h hm
    · exact h ht

/-- Helper: a successful `parse_status` implies the framing guard held. -/
theorem parse_status_some_guard (data : List Nat) (s : DeviceStatus)
    (hs : parse_status data = some s) :
    61 ≤ data.length ∧ data.take 2 = MAGIC ∧
      data.getD 2 0 = PacketType.DEVICE_STATE := by
  rw [parse_status] at hs
  split at hs
  · simp at hs
  · rename_i h
    push_neg at h
    exact ⟨by omega, h.2.1, h.2.2⟩

/-- C6: `parse_status` returns `none` for every input that is shorter than
61 bytes, does not start with the magic prefix, or does not carry the
DEVICE_STATE type byte at offset 2; for every input satisfying all three
conditions it returns a `DeviceStatus` in which every fixed-offset field
is populated with the value at its offset — never a partially filled
value. -/
theorem c6_parse_status_total (data : List Nat) :
    ((data.length < 61 ∨ data.take 2 ≠ MAGIC ∨
        data.getD 2 0 ≠ PacketType.DEVICE_STATE) →
      parse_status data = none) ∧
    (61 ≤ data.length → data.take 2 = MAGIC →
      data.getD 2 0 = PacketType.DEVICE_STATE →
      ∃ s, parse_status data = some s ∧
        s.device_id = data.getD 5 0 + 256 * data.getD 6 0 + 65536 * data.getD 7 0 ∧
        s.configured_volume = some (data.getD 22 0 + 256 * data.getD 23 0) ∧
        s.operating_days = some (data.getD 26 0 + 256 * data.getD 27 0) ∧
        s.filter_days = some (data.getD 28 0 + 256 * data.getD 29 0) ∧
        s.mode_selector = data.getD 34 0 ∧
        s.summer_limit_temp = some (data.getD 38 0) ∧
        s.holiday_days = data.getD 43 0 ∧
        s.boost_active = (data.getD 44 0 == 0x01) ∧
        s.airflow_indicator = data.getD 47 0 ∧
        s.summer_limit_enabled = (data.getD 50 0 != 0x00) ∧
        s.preheat_enabled = (data.getD 53 0 != 0x00) ∧
        s.preheat_temp = data.getD 56 0) := by
  constructor
  · intro h
    rw [parse_status]
    exact if_pos h
  · intro h61 hm ht
    exact ⟨_, parse_status_valid data h61 hm ht,
      rfl, rfl, rfl, rfl, rfl, rfl, rfl, rfl, rfl, rfl, rfl, rfl⟩

/-- C7: on a decoded device-state packet whose configured volume `V`
(little-endian from bytes 22–23) is positive, indicator byte 0x68 yields
airflow mode "low" with airflow `round(V * 0.36)`, 0xC2 yields "medium"
with `round(V * 0.45)`, 0x26 yields "high" with `round(V * 0.55)` —
Python's float `round`, modelled bit-exactly by `pyRound_0_36` /
`pyRound_0_45` / `pyRound_0_55` — and every other indicator byte
yields mode "unknown" with airflow 0 — a value is returned in every
case, never an exception. -/
theorem c7_airflow_formula (data : List Nat) (s : DeviceStatus)
    (hs : parse_status data = some s)
    (hv : 0 < data.getD 22 0 + 256 * data.getD 23 0) :
    (data.getD 47 0 = 0x68 → s.airflow_mode = "low" ∧
      s.airflow = pyRound_0_36 (data.getD 22 0 + 256 * data.getD 23 0)) ∧
    (data.getD 47 0 = 0xC2 → s.airflow_mode = "medium" ∧
      s.airflow = pyRound_0_45 (data.getD 22 0 + 256 * data.getD 23 0)) ∧
    (data.getD 47 0 = 0x26 → s.airflow_mode = "high" ∧
      s.airflow = pyRound_0_55 (data.getD 22 0 + 256 * data.getD 23 0)) ∧
    (data.getD 47 0 ≠ 0x68 → data.getD 47 0 ≠ 0xC2 → data.getD 47 0 ≠ 0x26 →
      s.airflow_mode = "unknown" ∧ s.airflow = 0) := by
  obtain ⟨h61, hm, ht⟩ := parse_status_some_guard data s hs
  have hval := parse_status_valid data h61 hm ht
  rw [hs] at hval
  have hsR := Option.some.inj hval
  subst hsR
  refine ⟨?_, ?_, ?_, ?_⟩
  · intro hind
    refine ⟨?_, ?_⟩
    · rw [hind]
      rfl
    · rw [hind]
      show pyOrNat (if 0 < data.getD 22 0 + 256 * data.getD 23 0 then
        some (pyRound_0_36 (data.getD 22 0 + 256 * data.getD 23 0)) else none) 0 = _
      rw [if_pos hv, pyOrNat_some_zero]
  · intro hind
    refine ⟨?_, ?_⟩
    · rw [hind]
      rfl
    · rw [hind]
      show pyOrNat (if 0 < data.getD 22 0 + 256 * data.getD 23 0 then
        some (pyRound_0_45 (data.getD 22 0 + 256 * data.getD 23 0)) else none) 0 = _
      rw [if_pos hv, pyOrNat_some_zero]
  · intro hind
    refine ⟨?_, ?_⟩
    · rw [hind]
      rfl
    · rw [hind]
      show pyOrNat (if 0 < data.getD 22 0 + 256 * data.getD 23 0 then
        some (pyRound_0_55 (data.getD 22 0 + 256 * data.getD 23 0)) else none) 0 = _
      rw [if_pos hv, pyOrNat_some_zero]
  · intro h1 h2 h3
    refine ⟨?_, ?_⟩
    · show (if data.getD 47 0 = 104 then "low"
        else if data.getD 47 0 = 194 then "medium"
        else if data.getD 47 0 = 38 then "high" else "unknown") = "unknown"
      rw [if_neg h1, if_neg h2, if_neg h3]
    · show (if data.getD 47 0 = 104 then
          pyOrNat (if 0 < data.getD 22 0 + 256 * data.getD 23 0 then
            some (pyRound_0_36 (data.getD 22 0 + 256 * data.getD 23 0)) else none) 0
        else if data.getD 47 0 = 194 then
          pyOrNat (if 0 < data.getD 22 0 + 256 * data.getD 23 0 then
            some (pyRound_0_45 (data.getD 22 0 + 256 * data.getD 23 0)) else none) 0
        else if data.getD 47 0 = 38 then
          pyOrNat (if 0 < data.getD 22 0 + 256 * data.getD 23 0 then
            some (pyRound_0_55 (data.getD 22 0 + 256 * data.getD 23 0)) else none) 0
        else 0) = 0
      rw [if_neg h1, if_neg h2, if_neg h3]

/-- C7 witness: the theorem applied to `c7_pkt`, whose configured volume
363 is positive; its indicator 0x68 yields mode "low" and airflow
131 = round(363 * 0.36). -/
theorem c7_airflow_formula_witness :
    (c7_pkt.getD 47 0 = 0x68 → c7_status.airflow_mode = "low" ∧
      c7_status.airflow = pyRound_0_36 (c7_pkt.getD 22 0 + 256 * c7_pkt.getD 23 0)) ∧
    (c7_pkt.getD 47 0 = 0xC2 → c7_status.airflow_mode = "medium" ∧
      c7_status.airflow = pyRound_0_45 (c7_pkt.getD 22 0 + 256 * c7_pkt.getD 23 0)) ∧
    (c7_pkt.getD 47 0 = 0x26 → c7_status.airflow_mode = "high" ∧
      c7_status.airflow = pyRound_0_55 (c7_pkt.getD 22 0 + 256 * c7_pkt.getD 23 0)) ∧
    (c7_pkt.getD 47 0 ≠ 0x68 → c7_pkt.getD 47 0 ≠ 0xC2 → c7_pkt.getD 47 0 ≠ 0x26 →
      c7_status.airflow_mode = "unknown" ∧ c7_status.airflow = 0) :=
  c7_airflow_formula c7_pkt c7_status (by rfl) (by decide)

/-- C9: in the reconciliation step of `get_fresh_status`, each of
`temp_probe1`, `temp_probe2` and `humidity_probe1` is overridden exactly
when the companion PROBE_SENSORS result supplies that field — a field
the probe packet does not supply keeps the base status value, so a
present field is never overwritten by an absent one — and every other
field of the `DeviceStatus` is left unchanged by the merge. -/
theorem c9_probe_merge_frame (st : DeviceStatus) (sd : SensorData) :
    (applyProbeOverrides st sd).temp_probe1 =
      (match sd.temp_probe1 with | some v => some v | none => st.temp_probe1) ∧
    (applyProbeOverrides st sd).temp_probe2 =
      (match sd.temp_probe2 with | some v => some v | none => st.temp_probe2) ∧
    (applyProbeOverrides st sd).humidity_probe1 =
      (match sd.humidity_probe1 with | some v => some v | none => st.humidity_probe1) ∧
    (applyProbeOverrides st sd).device_id = st.device_id ∧
    (applyProbeOverrides st sd).airflow_indicator = st.airflow_indicator ∧
    (applyProbeOverrides st sd).mode_selector = st.mode_selector ∧
    (applyProbeOverrides st sd).mode_name = st.mode_name ∧
    (applyProbeOverrides st sd).airflow = st.airflow ∧
    (applyProbeOverrides st sd).airflow_mode = st.airflow_mode ∧
    (applyProbeOverrides st sd).configured_volume = st.configured_volume ∧
    (applyProbeOverrides st sd).airflow_low = st.airflow_low ∧
    (applyProbeOverrides st sd).airflow_medium = st.airflow_medium ∧
    (applyProbeOverrides st sd).airflow_high = st.airflow_high ∧
    (applyProbeOverrides st sd).temp_remote = st.temp_remote ∧
    (applyProbeOverrides st sd).humidity_remote = st.humidity_remote ∧
    (applyProbeOverrides st sd).filter_days = st.filter_days ∧
    (applyProbeOverrides st sd).operating_days = st.operating_days ∧
    (applyProbeOverrides st sd).preheat_enabled = st.preheat_enabled ∧
    (applyProbeOverrides st sd).preheat_temp = st.preheat_temp ∧
    (applyProbeOverrides st sd).summer_limit_enabled = st.summer_limit_enabled ∧
    (applyProbeOverrides st sd).summer_limit_temp = st.summer_limit_temp ∧
    (applyProbeOverrides st sd).boost_active = st.boost_active ∧
    (applyProbeOverrides st sd).holiday_days = st.holiday_days := by
  obtain ⟨t1, t2, h1, fp⟩ := sd
  cases t1 <;> cases t2 <;> cases h1 <;>
    simp [applyProbeOverrides]

/-- Helper: `getD` past a six-element prefix reads from the tail. -/
theorem getD_past_six_header (a b c d e f x : Nat) (l : List Nat) (k : Nat) :
    ([a, b, c, d, e, f] ++ l).getD (6 + k) x = l.getD k x := by
  rw [show 6 + k = k + 1 + 1 + 1 + 1 + 1 + 1 from by omega]
  simp only [List.cons_append, List.nil_append, List.getD_cons_succ]

/-- Helper: the slot serialization emits two bytes per slot. -/
theorem scheduleSlotBytes_length (slots : List ScheduleSlot) :
    (scheduleSlotBytes slots).length = 2 * slots.length := by
  induction slots with
  | nil => rfl
  | cons s t ih =>
    simp only [scheduleSlotBytes, List.flatMap_cons] at ih ⊢
    simp [ih]
    omega

/-- Helper: byte `2 * i` of the serialized slots is slot `i`'s preheat
temperature and byte `2 * i + 1` its mode byte. -/
theorem scheduleSlotBytes_getD (slots : List ScheduleSlot) (i : Nat) (h : i < slots.length) :
    (scheduleSlotBytes slots).getD (2 * i) 0 =
      (slots.getD i ⟨0, 0⟩).preheat_temp ∧
    (scheduleSlotBytes slots).getD (2 * i + 1) 0 =
      (slots.getD i ⟨0, 0⟩).mode_byte := by
  induction slots generalizing i with
  | nil => simp at h
  | cons s t ih =>
    cases i with
    | zero =>
      constructor <;> rfl
    | succ j =>
      have hj : j < t.length := by
        simp only [List.length_cons] at h
        omega
      have hrec := ih j hj
      have e1 : 2 * (j + 1) = 2 * j + 1 + 1 := by omega
      rw [e1]
      show ((s.preheat_temp :: s.mode_byte :: scheduleSlotBytes t).getD (2 * j + 1 + 1) 0 = _) ∧
        ((s.preheat_temp :: s.mode_byte :: scheduleSlotBytes t).getD (2 * j + 1 + 1 + 1) 0 = _)
      simp only [List.getD_cons_succ]
      exact hrec

/-- C5: every 24-slot schedule whose slot values are bytes serializes via
`build_schedule_write` to a 55-byte packet, and the simulated
SCHEDULE_CONFIG response carrying the same header and slot bytes (the
packet with its type byte set to 0x46) parses back to a byte-identical
`ScheduleConfig` — slots with unrecognized mode bytes included, since
`parse_schedule_config` copies the raw bytes without coercing them. -/
theorem c5_schedule_roundtrip (config : ScheduleConfig)
    (h24 : config.slots.length = 24)
    (hbytes : ∀ slot ∈ config.slots, slot.preheat_temp ≤ 255 ∧ slot.mode_byte ≤ 255) :
    ∃ pkt, build_schedule_write config = some pkt ∧ pkt.length = 55 ∧
      parse_schedule_config (pkt.set 2 PacketType.SCHEDULE_CONFIG) = some config := by
  have hall : config.slots.all
      (fun slot => slot.preheat_temp ≤ 255 && slot.mode_byte ≤ 255) = true := by
    rw [List.all_eq_true]
    intro s hs
    have hb := hbytes s hs
    simp [hb.1, hb.2]
  have hflatlen : (scheduleSlotBytes config.slots).length = 48 := by
    rw [scheduleSlotBytes_length, h24]
  have hb : build_schedule_write config =
      some ((MAGIC ++ ([0x40, 0x06, 0x31, 0x00] ++ scheduleSlotBytes config.slots)) ++
        [calc_checksum ([0x40, 0x06, 0x31, 0x00] ++ scheduleSlotBytes config.slots)]) := by
    rw [build_schedule_write, if_neg (by omega), if_pos hall]
    rfl
  refine ⟨_, hb, ?_, ?_⟩
  · simp only [MAGIC, List.length_append, List.length_cons, List.length_nil, hflatlen]
  · have hset : ((MAGIC ++ ([0x40, 0x06, 0x31, 0x00] ++ scheduleSlotBytes config.slots)) ++
        [calc_checksum ([0x40, 0x06, 0x31, 0x00] ++ scheduleSlotBytes config.slots)]).set 2
          PacketType.SCHEDULE_CONFIG =
        [0xa5, 0xb6, 0x46, 0x06, 0x31, 0x00] ++ (scheduleSlotBytes config.slots ++
          [calc_checksum ([0x40, 0x06, 0x31, 0x00] ++ scheduleSlotBytes config.slots)]) := by
      rfl
    rw [hset]
    have hlen : ([0xa5, 0xb6, 0x46, 0x06, 0x31, 0x00] ++ (scheduleSlotBytes config.slots ++
        [calc_checksum ([0x40, 0x06, 0x31, 0x00] ++ scheduleSlotBytes config.slots)])).length = 55 := by
      simp only [List.length_append, List.length_cons, List.length_nil, hflatlen]
    rw [parse_schedule_config, if_neg, if_neg]
    · refine congrArg some ?_
      have hslots : (List.range 24).map (fun i => ScheduleSlot.mk
          (([0xa5, 0xb6, 0x46, 0x06, 0x31, 0x00] ++ (scheduleSlotBytes config.slots ++
            [calc_checksum ([0x40, 0x06, 0x31, 0x00] ++ scheduleSlotBytes config.slots)])).getD (6 + i * 2) 0)
          (([0xa5, 0xb6, 0x46, 0x06, 0x31, 0x00] ++ (scheduleSlotBytes config.slots ++
            [calc_checksum ([0x40, 0x06, 0x31, 0x00] ++ scheduleSlotBytes config.slots)])).getD (6 + i * 2 + 1) 0)) =
          config.slots := by
        apply List.ext_getElem
        · simp [h24]
        · intro n h1 h2
          simp only [List.getElem_map, List.getElem_range]
          have hn24 : n < 24 := by simpa using h1
          have hgd := scheduleSlotBytes_getD config.slots n (by omega)
          rw [show 6 + n * 2 + 1 = 6 + (n * 2 + 1) from by omega]
          rw [getD_past_six_header, getD_past_six_header]
          rw [List.getD_append _ _ _ _ (by rw [hflatlen]; omega),
            List.getD_append _ _ _ _ (by rw [hflatlen]; omega)]
          rw [show n * 2 = 2 * n from Nat.mul_comm n 2]
          rw [hgd.1, hgd.2]
          rw [List.getD_eq_getElem _ _ h2]
      rw [hslots]
    · exact fun h => h rfl
    · rintro (h | h | h)
      · rw [hlen] at h
        exact Nat.lt_irrefl _ h
      · exact h rfl
      · exact h rfl

/-- C5 witness: the round-trip theorem applied to `c5_config`, whose slot
23 carries the unrecognized mode byte 0x99. -/
theorem c5_schedule_roundtrip_witness :
    ∃ pkt, build_schedule_write c5_config = some pkt ∧ pkt.length = 55 ∧
      parse_schedule_config (pkt.set 2 PacketType.SCHEDULE_CONFIG) = some c5_config :=
  c5_schedule_roundtrip c5_config (by decide) (by decide)

/-- Helper: the DEVICE_STATE selection fold of `get_fresh_status` yields no
packet exactly when the accumulator holds none and every collected
packet is shorter than 43 bytes. -/
theorem selectStatus_fold_none_iff (sp : List (List Nat))
    (acc : Option (List Nat) × Option Nat) :
    (sp.foldl selectStatusStep acc).1 = none ↔
      (acc.1 = none ∧ ∀ p ∈ sp, p.length < 43) := by
  induction sp generalizing acc with
  | nil => simp
  | cons p t ih =>
    rw [List.foldl_cons, ih]
    by_cases h43 : 43 ≤ p.length
    · constructor
      · rintro ⟨hstep, hall⟩
        unfold selectStatusStep at hstep
        rw [if_pos h43] at hstep
        split at hstep <;> split at hstep <;> simp at hstep
      · rintro ⟨hacc, hall⟩
        have := hall p (List.mem_cons_self p t)
        omega
    · constructor
      · rintro ⟨hstep, hall⟩
        unfold selectStatusStep at hstep
        rw [if_neg h43] at hstep
        refine ⟨hstep, fun q hq => ?_⟩
        rcases List.mem_cons.mp hq with rfl | hq
        · omega
        · exact hall q hq
      · rintro ⟨hacc, hall⟩
        constructor
        · unfold selectStatusStep
          rw [if_neg h43]
          exact hacc
        · exact fun q hq => hall q (List.mem_cons_of_mem p hq)

/-- Helper: `parse_status` never populates the probe temperature or probe
humidity fields (they come from the PROBE_SENSORS packet). -/
theorem parse_status_probe_fields_none (data : List Nat) (s : DeviceStatus)
    (hs : parse_status data = some s) :
    s.temp_probe1 = none ∧ s.temp_probe2 = none ∧ s.humidity_probe1 = none := by
  rw [parse_status] at hs
  split at hs
  · simp at hs
  · have h := Option.some.inj hs
    subst h
    exact ⟨rfl, rfl, rfl⟩

/-- C2 (amended): `get_fresh_status` resolves as a timeout error exactly
when no DEVICE_STATE packet of length at least 43 was collected; when
such a packet arrived but the PROBE_SENSORS notification never did, the
operation returns a `DeviceStatus` whose probe fields are simply absent
rather than resolving as a timeout. -/
theorem c2_fresh_timeout_iff (state_packets : List (List Nat))
    (probe_data : Option (List Nat)) :
    (getFreshStatusResolve state_packets probe_data = Except.error ClientError.timeout ↔
      ∀ p ∈ state_packets, p.length < 43) ∧
    (match getFreshStatusResolve state_packets none with
     | Except.ok s => s.temp_probe1 = none ∧ s.temp_probe2 = none ∧ s.humidity_probe1 = none
     | Except.error _ => True) := by
  constructor
  · rcases hsel : (state_packets.foldl selectStatusStep (none, none)).1 with _ | pkt
    · have hall := ((selectStatus_fold_none_iff state_packets (none, none)).mp hsel).2
      simp only [getFreshStatusResolve, hsel]
      exact iff_of_true trivial hall
    · have hnot : ¬ ∀ p ∈ state_packets, p.length < 43 := by
        intro hall
        have hnone := (selectStatus_fold_none_iff state_packets (none, none)).mpr ⟨rfl, hall⟩
        rw [hsel] at hnone
        simp at hnone
      simp only [getFreshStatusResolve, hsel]
      rcases hps : parse_status pkt with _ | s
      · exact iff_of_false (by simp) hnot
      · exact iff_of_false (by simp) hnot
  · rcases hsel : (state_packets.foldl selectStatusStep (none, none)).1 with _ | pkt
    · simp [getFreshStatusResolve, hsel]
    · rcases hps : parse_status pkt with _ | s
      · simp [getFreshStatusResolve, hsel, hps]
      · have hf := parse_status_probe_fields_none pkt s hps
        rcases hrt : (state_packets.foldl selectStatusStep (none, none)).2 with _ | rt <;>
          simp [getFreshStatusResolve, hsel, hps, hrt, hf.1, hf.2.1, hf.2.2]

/-- C2 counterexample: a `get_fresh_status` run in which the expected
PROBE_SENSORS notification never arrives but a DEVICE_STATE packet did
does not resolve as a timeout error — it returns a `DeviceStatus` whose
probe fields are silently absent. -/
theorem c2_partial_status_cex :
    isTimeout (getFreshStatusRun [c2_state]) = false ∧
    resultProbeFields (getFreshStatusRun [c2_state]) = some (none, none, none) := by
  decide

/-- C3 counterexample: when a stale DEVICE_STATE notification (indicator
LOW) arrives before the fresh one (indicator HIGH), `get_status`
resolves with the stale first notification — its airflow mode is "low",
although the fresh packet alone would decode to "high". -/
theorem c3_stale_first_cex :
    resultAirflowMode (getStatusResolve [c3_stale, c3_fresh]) = some "low" ∧
    resultAirflowMode (getStatusResolve [c3_fresh]) = some "high" := by
  decide

/-- C3 (amended): `get_status` resolves with the first DEVICE_STATE
notification that arrives; it has no mechanism to distinguish a stale
notification from the fresh one, so a stale packet arriving first is
the one decoded. -/
theorem c3_get_status_first_wins (stale fresh : List Nat)
    (hstale : isDeviceStatePacket stale = true) :
    getStatusResolve [stale, fresh] =
      (match parse_status stale with
       | some s => Except.ok s
       | none => Except.error ClientError.invalidResponse) := by
  unfold getStatusResolve
  rw [List.find?_cons_of_pos _ hstale]
  show (match parse_status stale with
    | none => Except.error ClientError.invalidResponse
    | some status => Except.ok status) = _
  cases parse_status stale <;> rfl

/-- C3 witness: the amended theorem applied to the concrete stale/fresh
pair: the run decodes the stale packet. -/
theorem c3_get_status_first_wins_witness :
    getStatusResolve [c3_stale, c3_fresh] =
      (match parse_status c3_stale with
       | some s => Except.ok s
       | none => Except.error ClientError.invalidResponse) :=
  c3_get_status_first_wins c3_stale c3_fresh (by decide)
